import Mathlib

/-!
Verification of the deterministic engine-code inspection pipeline
(`prf_inspector`): code validation against the Honda engine-number
catalog and format patterns, year-based engraving-type rules, the
OpenCV engraving classifier scorecard, the alignment anomaly detector,
the OCR code normalizer, and the risk aggregation policy.

Strings from the Python source are embedded as `List Char`; Python
floats that act as exact decimal constants are embedded as `ℚ`;
dictionaries with fixed key sets become structures; string enums
become inductive types.
-/

/-- Python strings are modelled as lists of characters. -/
abbrev Str := List Char

/-- Build a `Str` from a Lean string literal. -/
def str (s : String) : Str := s.toList

/-- Python `abs` on rationals. -/
def ratAbs (x : ℚ) : ℚ := if x < 0 then -x else x

/-- The `EngravingType` enum of `honda_motor_specs.py` (values "ESTAMPAGEM",
"LASER", "DESCONHECIDO"); the same strings flow through
`anomaly_service.py`. -/
inductive EngravingType
  | ESTAMPAGEM
  | LASER
  | DESCONHECIDO
deriving DecidableEq, Repr

/-- The marking-type strings of `honda_specs.py` ("MICROPOINT" is the
laser/micro-point marking, "SOLID" the stamped one). -/
inductive MarkingType
  | MICROPOINT
  | SOLID
deriving DecidableEq, Repr

/-- Source `HondaMotorSpecs.LASER_TRANSITION_YEAR`. -/
def LASER_TRANSITION_YEAR : Int := 2010

/-- Source `HondaMotorSpecs.get_expected_engraving_type` (honda_motor_specs.py
lines 170-183): DESCONHECIDO outside [1980, 2100], otherwise LASER from
the transition year on, ESTAMPAGEM before. -/
def getExpectedEngravingType (year : Int) : EngravingType :=
  if year < 1980 ∨ 2100 < year then EngravingType.DESCONHECIDO
  else if LASER_TRANSITION_YEAR ≤ year then EngravingType.LASER
  else EngravingType.ESTAMPAGEM

/-- Source `HondaSpecs.get_expected_marking_type` (honda_specs.py lines 12-15):
"MICROPOINT" if year >= 2005 else "SOLID". -/
def getExpectedMarkingType (year : Int) : MarkingType :=
  if 2005 ≤ year then MarkingType.MICROPOINT else MarkingType.SOLID

/-- Source `AnomalyService.get_expected_type_for_year` (anomaly_service.py
lines 452-456): 'ESTAMPAGEM' below the transition year, else 'LASER'. -/
def anomalyExpectedTypeForYear (year : Int) : EngravingType :=
  if year < LASER_TRANSITION_YEAR then EngravingType.ESTAMPAGEM
  else EngravingType.LASER

/-- Source `HondaMotorSpecs.ENGINE_PREFIXES`: the catalog dict in source
order with duplicate key 'JC75E' collapsed to its final value, as a
Python dict literal does. -/
def engineCatalog : List (Str × String × Nat) :=
  [ (str "MC27E", "CG 160 Titan/Fan/Start", 160)
  , (str "MC41E", "CG 150 Titan/Fan", 150)
  , (str "MC38E", "CG 125 Fan", 125)
  , (str "MC44E", "CG 150", 150)
  , (str "MC44E1", "CG 150", 150)
  , (str "JC30E", "CG 125i Fan", 125)
  , (str "JC30E7", "CG 125i Fan", 125)
  , (str "JC75E", "POP 110i", 110)
  , (str "JC79E", "CG 160 Fan", 160)
  , (str "JC96E", "CG 160", 160)
  , (str "JC9RE", "CG 160", 160)
  , (str "MD09E", "XRE 300", 300)
  , (str "MD09E1", "XRE 300", 300)
  , (str "ND09E1", "XRE 300", 300)
  , (str "ND11E1", "XRE 300", 300)
  , (str "MD44E", "XRE 190", 190)
  , (str "NC51E", "CB 500F/X/R", 500)
  , (str "NC49E", "CB 500", 500)
  , (str "NC49E1", "CB 500", 500)
  , (str "NC49E1F", "CB 500F", 500)
  , (str "NC56E", "CB 650F", 650)
  , (str "NC61E", "CB 650", 650)
  , (str "NC61E0", "CB 650R", 650)
  , (str "MC52E", "CB 300R Twister", 300)
  , (str "MC65E", "CB 250F Twister", 250)
  , (str "MD37E", "NXR 160 Bros", 160)
  , (str "MD38E", "XRE 190 Bros", 190)
  , (str "MD41E", "NXR 160 Bros", 160)
  , (str "MD41E0", "NXR 160 Bros", 160)
  , (str "KYJ", "BIZ 125", 125)
  , (str "JF77E", "BIZ 110i", 110)
  , (str "JF83E", "BIZ 125", 125)
  , (str "PC40E", "PCX 150", 150)
  , (str "PC44E", "PCX 160", 160)
  , (str "JF81E", "Elite 125", 125)
  , (str "JK12E", "ADV 150", 150)
  , (str "NC70E", "Africa Twin CRF1000", 1000)
  , (str "NC75E", "Africa Twin CRF1100", 1100)
  , (str "KC08E1", "CG 125", 125)
  , (str "KC08E2", "CG 125", 125)
  , (str "KC22E1", "CG 125", 125)
  , (str "KD03E3", "Motor Genérico", 0)
  , (str "KD08E1", "Sahara/XLR 125", 125)
  , (str "KD08E2", "Sahara/XLR 125", 125)
  , (str "KF34E1", "Titan 150", 150)
  ]

/-- The catalog key set. -/
def catalogKeys : List Str := engineCatalog.map (·.1)

/-- Python `sorted(cls.ENGINE_PREFIXES.keys(), key=lambda x: (-len(x), x))`
(honda_motor_specs.py lines 243-246), written out: by decreasing
length, alphabetical within a length.  `sortedPfxs_pairwise` and
`sortedPfxs_perm` below prove that this literal list is that sort. -/
def sortedPfxs : List Str :=
  [ str "NC49E1F"
  , str "JC30E7", str "KC08E1", str "KC08E2", str "KC22E1", str "KD03E3"
  , str "KD08E1", str "KD08E2", str "KF34E1", str "MC44E1", str "MD09E1"
  , str "MD41E0", str "NC49E1", str "NC61E0", str "ND09E1", str "ND11E1"
  , str "JC30E", str "JC75E", str "JC79E", str "JC96E", str "JC9RE"
  , str "JF77E", str "JF81E", str "JF83E", str "JK12E", str "MC27E"
  , str "MC38E", str "MC41E", str "MC44E", str "MC52E", str "MC65E"
  , str "MD09E", str "MD37E", str "MD38E", str "MD41E", str "MD44E"
  , str "NC49E", str "NC51E", str "NC56E", str "NC61E", str "NC70E"
  , str "NC75E", str "PC40E", str "PC44E"
  , str "KYJ"
  ]

/-- The catalog lookup `cls.ENGINE_PREFIXES[matched_prefix]`. -/
def lookupPfx (p : Str) : Option (String × Nat) :=
  (engineCatalog.find? (fun e => e.1 = p)).map (·.2)

/-- The catalog-matching step of `validate_engine_format`
(honda_motor_specs.py lines 248-252): first entry of the sorted key
list that is a literal prefix of the input. -/
def matchPfx (code : Str) : Option Str :=
  sortedPfxs.find? (fun p => p.isPrefixOf code)

/-- Uppercase ASCII letter class `[A-Z]` (inputs to the patterns are
already uppercased). -/
def isAZ (c : Char) : Bool := 'A' ≤ c && c ≤ 'Z'

/-- Character class `[A-Z0-9]`. -/
def isAZ09 (c : Char) : Bool := isAZ c || c.isDigit

/-- The hyphen class for the optional `-?`. -/
def isHy (c : Char) : Bool := c = '-'

/-- Take exactly `n` leading characters all in class `p`, returning
them and the rest. -/
def takeExact (p : Char → Bool) (n : Nat) (s : Str) : Option (Str × Str) :=
  let pre := s.take n
  if pre.length = n ∧ pre.all p then some (pre, s.drop n) else none

/-- One fully-determined attempt at
`^([A-Z]{2,4}\d{0,2}[A-Z]?\d?[A-Z]?)-?([A-Z]?\d{5,8})$` with the
repetition counts fixed; returns the two capture groups. -/
def pat1Try (s : Str) (a b c d e f g h : Nat) : Option (Str × Str) :=
  (takeExact isAZ a s).bind fun x1 =>
  (takeExact Char.isDigit b x1.2).bind fun x2 =>
  (takeExact isAZ c x2.2).bind fun x3 =>
  (takeExact Char.isDigit d x3.2).bind fun x4 =>
  (takeExact isAZ e x4.2).bind fun x5 =>
  (takeExact isHy f x5.2).bind fun x6 =>
  (takeExact isAZ g x6.2).bind fun x7 =>
  (takeExact Char.isDigit h x7.2).bind fun x8 =>
  if x8.2 = [] then
    some (x1.1 ++ x2.1 ++ x3.1 ++ x4.1 ++ x5.1, x7.1 ++ x8.1)
  else none

/-- Source `ENGINE_NUMBER_PATTERN` (honda_motor_specs.py lines 159-162):
anchored match with Python's greedy backtracking order (each greedy
quantifier tries its longest count first, rightmost choice point
backtracks first). -/
def pattern1Match (s : Str) : Option (Str × Str) :=
  [4, 3, 2].findSome? fun a =>
  [2, 1, 0].findSome? fun b =>
  [1, 0].findSome? fun c =>
  [1, 0].findSome? fun d =>
  [1, 0].findSome? fun e =>
  [1, 0].findSome? fun f =>
  [1, 0].findSome? fun g =>
  [8, 7, 6, 5].findSome? fun h =>
  pat1Try s a b c d e f g h

/-- One fully-determined attempt at
`^([A-Z]{2}[A-Z0-9]{2,5})-?([A-Z0-9]{5,8})$`. -/
def pat2Try (s : Str) (b f h : Nat) : Option (Str × Str) :=
  (takeExact isAZ 2 s).bind fun x1 =>
  (takeExact isAZ09 b x1.2).bind fun x2 =>
  (takeExact isHy f x2.2).bind fun x3 =>
  (takeExact isAZ09 h x3.2).bind fun x4 =>
  if x4.2 = [] then some (x1.1 ++ x2.1, x4.1) else none

/-- Source `ENGINE_NUMBER_PATTERN_ALT` (honda_motor_specs.py lines 165-168). -/
def pattern2Match (s : Str) : Option (Str × Str) :=
  [5, 4, 3, 2].findSome? fun b =>
  [1, 0].findSome? fun f =>
  [8, 7, 6, 5].findSome? fun h =>
  pat2Try s b f h

/-- The issue strings appended by `validate_engine_format`, as tagged
values carrying the data interpolated into the Python message. -/
inductive Issue
  | emptyInput
  | tooShort (n : Nat)
  | tooLong (n : Nat)
  | notCatalogued (p : Str)
  | notRecognized (cleaned : Str)
  | serialTooShort (nDigits : Nat)
  | serialTooLong (nDigits : Nat)
  | invalidChars (cs : Str)
deriving DecidableEq, Repr

/-- The result dict of `validate_engine_format`; the Python key
'prefix' is the field `pfx`. -/
structure ValidationResult where
  valid : Bool
  original : Str
  cleaned : Str
  pfx : Option Str
  serial : Option Str
  modelInfo : Option (String × Nat)
  issues : List Issue
  confidence : ℚ
deriving DecidableEq, Repr

/-- Python `engine_number.strip()`. -/
def stripWs (s : Str) : Str :=
  ((s.dropWhile Char.isWhitespace).reverse.dropWhile Char.isWhitespace).reverse

/-- Python `engine_number.strip().upper().replace(' ', '')`
(honda_motor_specs.py line 226). -/
def cleanNumber (s : Str) : Str :=
  ((stripWs s).map Char.toUpper).filter (fun c => c ≠ ' ')

/-- Source `validate_engine_format` (honda_motor_specs.py lines 194-281) up to
but not including the serial post-validation block. -/
def validateBase (engineNumber : Str) : ValidationResult :=
  if engineNumber = [] then
    ⟨false, engineNumber, [], none, none, none, [Issue.emptyInput], 0⟩
  else
    let cleaned := cleanNumber engineNumber
    let cfa := cleaned.filter (fun c => c ≠ '-')
    if cfa.length < 8 then
      ⟨false, engineNumber, cleaned, none, none, none, [Issue.tooShort cfa.length], 0⟩
    else if 16 < cfa.length then
      ⟨false, engineNumber, cleaned, none, none, none, [Issue.tooLong cfa.length], 0⟩
    else
      match matchPfx cfa with
      | some p =>
          ⟨true, engineNumber, cleaned, some p, some (cfa.drop p.length),
            lookupPfx p, [], (95 : ℚ)/100⟩
      | none =>
          match pattern1Match cfa <|> pattern2Match cfa with
          | some g =>
              ⟨true, engineNumber, cleaned, some g.1, some g.2, none,
                [Issue.notCatalogued g.1], (70 : ℚ)/100⟩
          | none =>
              ⟨false, engineNumber, cleaned, none, none, none,
                [Issue.notRecognized cleaned], 0⟩

/-- The serial post-validation block of `validate_engine_format`
(honda_motor_specs.py lines 284-309): guarded by Python's truthiness
of `result['serial']`, so a `None` or empty serial is skipped. -/
def serialPostCheck (r : ValidationResult) : ValidationResult :=
  match r.serial with
  | none => r
  | some s =>
      if s = [] then r
      else
        let digits := s.filter Char.isDigit
        let r1 :=
          if digits.length < 5 then
            { r with issues := r.issues ++ [Issue.serialTooShort digits.length],
                     valid := false, confidence := r.confidence * ((1 : ℚ)/2) }
          else r
        let r2 :=
          if 8 < digits.length then
            { r1 with issues := r1.issues ++ [Issue.serialTooLong digits.length],
                      confidence := r1.confidence * ((8 : ℚ)/10) }
          else r1
        let invalid := s.filter (fun c => !(isAZ09 c))
        if invalid ≠ [] then
          { r2 with issues := r2.issues ++ [Issue.invalidChars invalid],
                    confidence := r2.confidence * ((7 : ℚ)/10) }
        else r2

/-- Source `HondaMotorSpecs.validate_engine_format`, whole function. -/
def validateEngineFormat (engineNumber : Str) : ValidationResult :=
  serialPostCheck (validateBase engineNumber)

/-- Finding severities used by the anomaly service ('BAIXO' unused by
the embedded paths, 'MÉDIO' for alignment findings, 'CRÍTICO' for the
type-mismatch finding). -/
inductive Severity
  | BAIXO
  | MEDIUM
  | CRITICO
deriving DecidableEq, Repr

/-- Direction of a density deviation relative to the median. -/
inductive Direction
  | above
  | below
deriving DecidableEq, Repr

/-- The reason text of a finding, as tagged data carrying what the
Python message interpolates. -/
inductive Reason
  | misalignment (deviationPx : ℚ)
  | typeMismatch (detected expected : EngravingType)
  | densityOutlier (dir : Direction) (deviation : ℚ)
deriving DecidableEq, Repr

/-- One entry of the `outliers` list of `AnomalyService.analyze`. -/
structure Finding where
  char : Char
  position : Nat
  severity : Severity
  reason : Reason
deriving DecidableEq, Repr

/-- One OCR glyph-metrics dict (`OCREngine.get_character_metrics`),
extended with the spec's `dotCount` field (`dots`), which only the
spec-modelled density detector reads. -/
structure GlyphMetric where
  char : Char
  index : Nat
  height : ℚ
  center_y : ℚ
  dots : ℚ
deriving DecidableEq, Repr

/-- Insert into a sorted rational list. -/
def insert1 (x : ℚ) : List ℚ → List ℚ
  | [] => [x]
  | y :: ys => if x ≤ y then x :: y :: ys else y :: insert1 x ys

/-- Insertion sort on rationals (ascending), the sort underlying
`np.median`. -/
def isort : List ℚ → List ℚ
  | [] => []
  | x :: xs => insert1 x (isort xs)

/-- Numpy `np.median`: middle element of the sorted list for odd length, the
mean of the two middle elements for even length. -/
def median (l : List ℚ) : ℚ :=
  if (isort l).length % 2 = 1 then (isort l).getD ((isort l).length / 2) 0
  else ((isort l).getD ((isort l).length / 2 - 1) 0
        + (isort l).getD ((isort l).length / 2) 0) / 2

/-- The loop body of `_analyze_alignment` (anomaly_service.py lines
416-429): a glyph with `center_y == 0` is skipped; otherwise it is
flagged 'MÉDIO' at position `index + 1` when its deviation from the
median center exceeds the tolerance. -/
def alignFlag (medianCenter tolerance : ℚ) (m : GlyphMetric) : Option Finding :=
  if m.center_y = 0 then none
  else
    if tolerance < ratAbs (m.center_y - medianCenter) then
      some ⟨m.char, m.index + 1, Severity.MEDIUM,
        Reason.misalignment (ratAbs (m.center_y - medianCenter))⟩
    else none

/-- Source `AnomalyService._analyze_alignment` (anomaly_service.py lines
399-430): needs at least 3 metrics, filters out non-positive centers
and heights, flags every glyph (with a nonzero center) whose center
deviates from the median center by more than `median height * 0.15`. -/
def analyzeAlignment (metrics : List GlyphMetric) : List Finding :=
  if metrics.length < 3 then []
  else
    let centers := (metrics.map (·.center_y)).filter (fun c => 0 < c)
    let heights := (metrics.map (·.height)).filter (fun h => 0 < h)
    if centers = [] ∨ heights = [] then []
    else
      metrics.filterMap (alignFlag (median centers) (median heights * ((15 : ℚ)/100)))

/-- The whole-image features measured by
`AnomalyService._detect_type_opencv` before scoring. -/
structure CvFeatures where
  edge_density : ℚ
  thickness : ℚ
  texture_variance : ℚ
  gradient_std : ℚ
  small_contours : Nat
deriving DecidableEq, Repr

/-- The 0-100 laser score of `_detect_type_opencv` (anomaly_service.py
lines 213-245): each feature contributes points through two tuned
thresholds. -/
def laserScoreOf (f : CvFeatures) : Nat :=
  (if (8 : ℚ)/100 < f.edge_density then 25
   else if (5 : ℚ)/100 < f.edge_density then 15 else 0) +
  (if f.thickness < 2 then 25
   else if f.thickness < (5 : ℚ)/2 then 15 else 0) +
  (if f.texture_variance < 300 then 20
   else if f.texture_variance < 500 then 10 else 0) +
  (if f.gradient_std < (12 : ℚ)/10 then 15
   else if f.gradient_std < (15 : ℚ)/10 then 8 else 0) +
  (if 100 < f.small_contours then 15
   else if 50 < f.small_contours then 8 else 0)

/-- The result dict of `_detect_type_opencv`. -/
structure CvResult where
  type : EngravingType
  confidence : ℚ
  avg_dots : Nat
deriving DecidableEq, Repr

/-- Source `AnomalyService._detect_type_opencv` (anomaly_service.py lines
146-264) over the decoded image, abstracted by its measured features:
`none` models bytes on which `cv2.imdecode` returns `None`, in which
case the defaults DESCONHECIDO / 0.0 / 0 are returned. -/
def detectTypeOpencv (decoded : Option CvFeatures) : CvResult :=
  match decoded with
  | none => ⟨EngravingType.DESCONHECIDO, 0, 0⟩
  | some f =>
      let s := laserScoreOf f
      if 65 ≤ s then
        ⟨EngravingType.LASER, min ((s : ℚ)/100) ((95 : ℚ)/100), f.small_contours⟩
      else if s ≤ 35 then
        ⟨EngravingType.ESTAMPAGEM, min (((100 - s : ℕ) : ℚ)/100) ((95 : ℚ)/100),
          f.small_contours⟩
      else
        ⟨EngravingType.DESCONHECIDO, (1 : ℚ)/2, f.small_contours⟩

/-- Source `_detect_type_opencv` as a function of the raw byte input, with the
image decoder (`np.frombuffer` + `cv2.imdecode`) abstracted as a
parameter. -/
def detectTypeFromBytes (decode : List Nat → Option CvFeatures)
    (imageBytes : List Nat) : CvResult :=
  detectTypeOpencv (decode imageBytes)

/-- The deterministic fields of the result dict of
`AnomalyService.analyze` that the claims read. -/
structure AnalyzeResult where
  detected_type : EngravingType
  type_match : Bool
  outliers : List Finding
  alignment_ok : Bool
deriving DecidableEq, Repr

/-- The deterministic path of `AnomalyService.analyze`
(anomaly_service.py lines 46-139) with the Claude branch disabled (no
API key): OpenCV detection, the type-vs-year validation appending one
'CRÍTICO' outlier on mismatch, then the alignment analysis extending
the outliers. -/
def analyzeService (decode : List Nat → Option CvFeatures)
    (imageBytes : List Nat) (ocrMetrics : List GlyphMetric)
    (expectedType : EngravingType) : AnalyzeResult :=
  let cv := detectTypeOpencv (decode imageBytes)
  let mismatch : Bool :=
    (cv.type != EngravingType.DESCONHECIDO) && (cv.type != expectedType)
  let typeOutliers : List Finding :=
    if mismatch then
      [⟨'*', 0, Severity.CRITICO, Reason.typeMismatch cv.type expectedType⟩]
    else []
  let alignIssues := if ocrMetrics.isEmpty then [] else analyzeAlignment ocrMetrics
  { detected_type := cv.type
  , type_match := !mismatch
  , outliers := typeOutliers ++ alignIssues
  , alignment_ok := alignIssues.isEmpty }

/-- Verdict bands of the spec's RiskAssessment. -/
inductive Verdict
  | REGULAR
  | ATTENTION
  | SUSPECT
  | HIGH_SUSPICION
deriving DecidableEq, Repr

/-- The spec's RiskAssessment record. -/
structure RiskAssessment where
  score : Nat
  verdict : Verdict
deriving DecidableEq, Repr

/-- Modelled from the spec: the consolidated RiskAggregator of spec
section 4.7 has no single implementation under src/ (the history holds
only checklist-based revisions in forensic_ai_service.py), so it is
modelled from the spec's words: format issues +8 each capped at 25,
engraving-type mismatch +10 flat, anomaly findings +5 each capped at
15, gap mismatches +20 each, external opinions that rest purely on
glyph shape capped at 35; any CRITICAL finding forces the score to at
least 85; the score is clamped to [0,100]; verdict bands are
REGULAR up to 10, ATTENTION up to 30, SUSPECT up to 60, HIGH_SUSPICION
above 60. -/
def riskAggregate (formatIssues : Nat) (typeMismatch : Bool)
    (findings : List Finding) (gapMismatches : Nat)
    (opinionShapeOnly : Bool) (opinionPoints : Nat) : RiskAssessment :=
  let opinion := if opinionShapeOnly then min opinionPoints 35 else opinionPoints
  let base := min (formatIssues * 8) 25 + (if typeMismatch then 10 else 0)
      + min (findings.length * 5) 15 + gapMismatches * 20 + opinion
  let score0 :=
    if findings.any (fun fd => fd.severity == Severity.CRITICO) then max base 85
    else base
  let score := min score0 100
  { score := score
  , verdict :=
      if score ≤ 10 then Verdict.REGULAR
      else if score ≤ 30 then Verdict.ATTENTION
      else if score ≤ 60 then Verdict.SUSPECT
      else Verdict.HIGH_SUSPICION }

/-- Modelled from the spec: the density-outlier pass of spec section
4.5 has no implementation under src/ (anomaly_service.py's analyze
performs only the type check and the alignment analysis), so it is
modelled from the spec's words: only when the whole image is
classified LASER, compute the median per-glyph dot count, set the
tolerance to that median times DENSITY_TOLERANCE (a calibration
parameter, ref. 0.30-0.45), and flag every glyph deviating beyond the
tolerance with a density-outlier finding noting whether it is above or
below the median. -/
def densityOutliers (densityTol : ℚ) (classification : EngravingType)
    (metrics : List GlyphMetric) : List Finding :=
  match classification with
  | EngravingType.LASER =>
      let medianDots := median (metrics.map (·.dots))
      let tol := medianDots * densityTol
      metrics.filterMap fun m =>
        let dev := ratAbs (m.dots - medianDots)
        if tol < dev then
          some ⟨m.char, m.index + 1, Severity.MEDIUM,
            Reason.densityOutlier
              (if medianDots < m.dots then Direction.above else Direction.below)
              dev⟩
        else none
  | _ => []

/-- Python `text.replace(a, b)` for single characters. -/
def replAll (a b : Char) (l : Str) : Str :=
  l.map fun c => if c = a then b else c

/-- Source `OCREngine.KNOWN_PREFIXES` (ocr.py lines 32-42), in source order. -/
def KNOWN_PFXS : List Str :=
  [ str "ND09E1", str "MD09E1", str "MD09E", str "ND09E"
  , str "MC27E", str "MC41E", str "MC38E", str "MC52E", str "MC65E"
  , str "MD37E", str "MD38E", str "MD44E"
  , str "NC51E", str "NC56E", str "NC70E", str "NC75E"
  , str "JC30E", str "JC75E", str "JC79E"
  , str "JF77E", str "JF81E", str "JF83E"
  , str "PC40E", str "PC44E"
  , str "JK12E"
  , str "KYJ" ]

/-- Source `OCREngine._generate_ocr_variants` (ocr.py lines 236-249), in
append order. -/
def genOcrVariants (t : Str) : List Str :=
  [t, replAll 'O' '0' t, replAll '0' 'O' t, replAll 'I' '1' t,
   replAll 'O' '0' (replAll 'I' '1' t)]

/-- Source `OCREngine._generate_prefix_variants` (ocr.py lines 251-269), in
append order. -/
def genPfxVariants (p : Str) : List Str :=
  [p]
  ++ (if 'D' ∈ p then [replAll 'D' 'O' p, replAll 'D' '0' p] else [])
  ++ (if '0' ∈ p then [replAll '0' 'O' p] else [])
  ++ (if '1' ∈ p then [replAll '1' 'I' p, replAll '1' 'l' p] else [])

/-- Python `sub in s` / `s.index(sub)`: index of the first occurrence
of `pat` in `s`. -/
def findSub (pat : Str) : Str → Option Nat
  | [] => if pat = [] then some 0 else none
  | c :: cs =>
      if pat.isPrefixOf (c :: cs) then some 0
      else (findSub pat cs).map (· + 1)

/-- The inner search of `_reorganize_honda_format` over one OCR
variant: first known prefix (in list order), first of its variants,
found anywhere in the text; rotated to the front when at a non-zero
offset. -/
def reorgFind (variant : Str) : Option Str :=
  KNOWN_PFXS.findSome? fun p =>
    (genPfxVariants p).findSome? fun pv =>
      match findSub pv variant with
      | none => none
      | some idx =>
          if 0 < idx then
            some (pv ++ variant.take idx ++ variant.drop (idx + pv.length))
          else some variant

/-- Source `OCREngine._reorganize_honda_format` (ocr.py lines 203-234). -/
def reorganizeHondaFormat (t : Str) : Str :=
  if t.length < 10 then t
  else
    match (genOcrVariants t).findSome? reorgFind with
    | some r => r
    | none => t

/-- The O→0 / I→1 rewriting used by the digit positions of
`_apply_honda_corrections`. -/
def fixOI (c : Char) : Char :=
  if c = 'O' then '0' else if c = 'I' then '1' else c

/-- The per-position rewriting of `_apply_honda_corrections` (ocr.py
lines 271-341): `c1` is the original first character, `n` the length,
`i` the 0-based position.  Position 1 rewrites O/0 to D after N/M and
to C after J/P/N; positions 2, 3 and 5 rewrite O→0 and I→1; positions
7..13 do the same when the text has at least 13 characters. -/
def corrRule (c1 : Char) (n i : Nat) (c : Char) : Char :=
  if i = 1 then
    if c = 'O' ∨ c = '0' then
      if c1 = 'N' ∨ c1 = 'M' then 'D'
      else if c1 = 'J' ∨ c1 = 'P' ∨ c1 = 'N' then 'C'
      else c
    else c
  else if i = 2 ∨ i = 3 then fixOI c
  else if i = 5 then fixOI c
  else if 13 ≤ n ∧ 7 ≤ i ∧ i < min 14 n then fixOI c
  else c

/-- Apply `corrRule` at every position from `i` on. -/
def corrGo (c1 : Char) (n : Nat) (i : Nat) : Str → Str
  | [] => []
  | c :: cs => corrRule c1 n i c :: corrGo c1 n (i + 1) cs

/-- Source `OCREngine._apply_honda_corrections` (ocr.py lines 271-341):
returns short input unchanged, otherwise rewrites position by
position. -/
def applyHondaCorrections (t : Str) : Str :=
  if t.length < 6 then t else corrGo (t.headD ' ') t.length 0 t

/-- The CodeNormalizer of the spec: the prefix-reorder step followed
by the position-anchored corrections (ocr.py `process_image` steps 3
and 4). -/
def normalizeCode (t : Str) : Str :=
  applyHondaCorrections (reorganizeHondaFormat t)

/-! ## General lemmas about the catalog matcher -/

/-- The literal `sortedPfxs` is ordered by non-increasing length, as
`sorted(..., key=lambda x: (-len(x), x))` guarantees. -/
theorem sortedPfxs_len_pairwise :
    List.Pairwise (fun a b : Str => b.length ≤ a.length) sortedPfxs := by
  decide

/-- The literal `sortedPfxs` holds exactly the catalog keys. -/
theorem sortedPfxs_perm : sortedPfxs.Perm catalogKeys := by
  decide

/-- In a list ordered by non-increasing length, the first element
satisfying a predicate has maximal length among all elements
satisfying it. -/
theorem find?_first_longest (q : Str → Bool) :
    ∀ (l : List Str), List.Pairwise (fun a b : Str => b.length ≤ a.length) l →
      ∀ P, l.find? q = some P → ∀ Q ∈ l, q Q = true → Q.length ≤ P.length := by
  intro l
  induction l with
  | nil => intro _ P hP Q hQ; simp at hQ
  | cons a t ih =>
      intro hpw P hP Q hQ hq
      rcases List.pairwise_cons.mp hpw with ⟨ha, ht⟩
      by_cases haq : q a = true
      · rw [List.find?_cons_of_pos _ haq] at hP
        cases hP
        rcases List.mem_cons.mp hQ with h | h
        · subst h; exact le_refl _
        · exact ha Q h
      · rw [List.find?_cons_of_neg _ (by simpa using haq)] at hP
        rcases List.mem_cons.mp hQ with h | h
        · subst h; exact absurd hq haq
        · exact ih ht P hP Q h hq

/-- A member satisfying the predicate forces `find?` to succeed. -/
theorem find?_succeeds (q : Str → Bool) (l : List Str) (Q : Str)
    (hm : Q ∈ l) (hq : q Q = true) : ∃ P, l.find? q = some P := by
  have : (l.find? q).isSome = true := List.find?_isSome.mpr ⟨Q, hm, hq⟩
  exact Option.isSome_iff_exists.mp this

/-- C2 (counterexample): the claim "if the code starts with P2 the
matcher returns P2" fails: 'NC49E' is a proper prefix of the catalog
entry 'NC49E1', the code "NC49E1F105588" starts with 'NC49E1', yet
the matcher returns the still longer entry 'NC49E1F', not 'NC49E1'. -/
theorem c2_counterexample :
    str "NC49E" ∈ catalogKeys ∧ str "NC49E1" ∈ catalogKeys ∧
    (str "NC49E").isPrefixOf (str "NC49E1") = true ∧
    str "NC49E" ≠ str "NC49E1" ∧
    (str "NC49E1").isPrefixOf (str "NC49E1F105588") = true ∧
    matchPfx (str "NC49E1F105588") = some (str "NC49E1F") ∧
    matchPfx (str "NC49E1F105588") ≠ some (str "NC49E1") := by
  decide

/-- C2 (amended): whenever some catalog entry P2 is a literal prefix
of the code, the matcher returns a catalog entry that is a prefix of
the code of maximal length (hence of length at least that of P2, and
never a proper prefix P1 of P2). -/
theorem c2_longest_catalog_match (code P2 : Str)
    (h2 : P2 ∈ catalogKeys) (hp2 : P2.isPrefixOf code = true) :
    ∃ P, matchPfx code = some P ∧ P ∈ catalogKeys ∧
      P.isPrefixOf code = true ∧ P2.length ≤ P.length ∧
      ∀ P1 ∈ catalogKeys, P1.isPrefixOf code = true → P1.length ≤ P.length := by
  have h2s : P2 ∈ sortedPfxs := (sortedPfxs_perm.mem_iff).mpr h2
  obtain ⟨P, hP⟩ :=
    find?_succeeds (fun p => p.isPrefixOf code) sortedPfxs P2 h2s hp2
  have hmem : P ∈ catalogKeys :=
    (sortedPfxs_perm.mem_iff).mp (List.mem_of_find?_eq_some hP)
  have hpfx : P.isPrefixOf code = true := by
    have h := List.find?_some (p := fun p : Str => p.isPrefixOf code) hP
    simpa using h
  have hmax : ∀ P1 ∈ catalogKeys, P1.isPrefixOf code = true →
      P1.length ≤ P.length := by
    intro P1 h1 hp1
    exact find?_first_longest _ sortedPfxs sortedPfxs_len_pairwise P hP P1
      ((sortedPfxs_perm.mem_iff).mpr h1) hp1
  exact ⟨P, hP, hmem, hpfx, hmax P2 h2 hp2, hmax⟩

/-- C2 (witness): instantiation at the code "MD09E1B215797" and the
catalog entry 'MD09E'. -/
theorem c2_longest_catalog_match_witness :
    str "MD09E" ∈ catalogKeys ∧
    (str "MD09E").isPrefixOf (str "MD09E1B215797") = true ∧
    ∃ P, matchPfx (str "MD09E1B215797") = some P ∧ P ∈ catalogKeys ∧
      P.isPrefixOf (str "MD09E1B215797") = true ∧
      (str "MD09E").length ≤ P.length ∧
      ∀ P1 ∈ catalogKeys, P1.isPrefixOf (str "MD09E1B215797") = true →
        P1.length ≤ P.length :=
  ⟨by decide, by decide,
    c2_longest_catalog_match (str "MD09E1B215797") (str "MD09E")
      (by decide) (by decide)⟩

/-! ## C3: parsing "ZZ00X-999999" -/

/-- C3 (counterexample): the claim says "ZZ00X-999999" matches neither
the catalog nor either regex and yields valid=false, confidence=0.0;
in fact the primary pattern matches it (captures 'ZZ00X9' / '99999'),
so the validator returns valid=true with confidence 0.70. -/
theorem c3_counterexample :
    (validateEngineFormat (str "ZZ00X-999999")).valid = true ∧
    (validateEngineFormat (str "ZZ00X-999999")).confidence ≠ 0 := by
  constructor
  · decide
  · have h : (validateEngineFormat (str "ZZ00X-999999")).confidence = (70 : ℚ)/100 :=
      rfl
    rw [h]; norm_num

/-- C3 (amended): parsing "ZZ00X-999999" finds no catalog entry but
matches the primary format pattern with captured groups 'ZZ00X9' and
'99999', so the result is valid with confidence 0.70, no model info,
and exactly one issue recording the non-catalogued format. -/
theorem c3_zz_code_regex_match :
    (validateEngineFormat (str "ZZ00X-999999")).valid = true ∧
    (validateEngineFormat (str "ZZ00X-999999")).pfx = some (str "ZZ00X9") ∧
    (validateEngineFormat (str "ZZ00X-999999")).serial = some (str "99999") ∧
    (validateEngineFormat (str "ZZ00X-999999")).modelInfo = none ∧
    (validateEngineFormat (str "ZZ00X-999999")).issues
      = [Issue.notCatalogued (str "ZZ00X9")] ∧
    (validateEngineFormat (str "ZZ00X-999999")).confidence = (70 : ℚ)/100 ∧
    matchPfx ((cleanNumber (str "ZZ00X-999999")).filter (fun c => c ≠ '-')) = none ∧
    pattern1Match ((cleanNumber (str "ZZ00X-999999")).filter (fun c => c ≠ '-'))
      = some (str "ZZ00X9", str "99999") :=
  ⟨by decide, by decide, by decide, by decide, by decide, rfl, by decide, by decide⟩

/-! ## C4: expected engraving type by year -/

/-- C4 (counterexample): the claim "LASER exactly when year >= 2010,
STAMPED otherwise, in every component" fails: `honda_specs.py` already
uses the micro-point (laser-class) marking for 2007 < 2010, and
`honda_motor_specs.py` answers DESCONHECIDO rather than the stamped
type for 1979 < 2010. -/
theorem c4_counterexample :
    getExpectedMarkingType 2007 ≠ MarkingType.SOLID ∧ (2007 : Int) < 2010 ∧
    getExpectedEngravingType 1979 ≠ EngravingType.ESTAMPAGEM ∧
    (1979 : Int) < 2010 := by
  decide

/-- C4 (amended): the three components derive the expected type from
the year with different rules: `get_expected_engraving_type` uses the
2010 transition only inside [1980, 2100] and answers DESCONHECIDO
outside; `get_expected_marking_type` uses a 2005 transition with the
MICROPOINT/SOLID vocabulary; `get_expected_type_for_year` uses the
2010 transition for every integer year. -/
theorem c4_expected_type_rules (year : Int) :
    (getExpectedEngravingType year =
      if year < 1980 ∨ 2100 < year then EngravingType.DESCONHECIDO
      else if 2010 ≤ year then EngravingType.LASER
      else EngravingType.ESTAMPAGEM) ∧
    (getExpectedMarkingType year =
      if 2005 ≤ year then MarkingType.MICROPOINT else MarkingType.SOLID) ∧
    (anomalyExpectedTypeForYear year =
      if 2010 ≤ year then EngravingType.LASER else EngravingType.ESTAMPAGEM) := by
  refine ⟨rfl, rfl, ?_⟩
  unfold anomalyExpectedTypeForYear LASER_TRANSITION_YEAR
  rcases lt_or_le year 2010 with h | h
  · rw [if_pos h, if_neg (by omega)]
  · rw [if_neg (by omega), if_pos h]

/-! ## C5: serial character set -/

/-- C5 (counterexample): a parsed result can carry a serial with a
character outside [A-Z0-9]: the catalog path copies the remainder of
the cleaned input verbatim, so "MC27E!12345" yields the serial
"!12345" (and the validator itself records the invalid character as an
issue rather than excluding it). -/
theorem c5_counterexample :
    (validateEngineFormat (str "MC27E!12345")).serial = some (str "!12345") ∧
    ¬ (∀ c ∈ str "!12345", isAZ09 c = true) ∧
    (validateEngineFormat (str "MC27E!12345")).valid = true := by
  decide

/-- The serial post-validation never changes the extracted serial. -/
theorem serialPostCheck_serial (r : ValidationResult) :
    (serialPostCheck r).serial = r.serial := by
  rcases hs : r.serial with _ | s0
  · simp only [serialPostCheck, hs]
  · simp only [serialPostCheck, hs]
    split_ifs <;> simp [hs]

/-- A nonempty serial containing characters outside [A-Z0-9] makes the
post-validation record the invalid-characters issue. -/
theorem serialPostCheck_invalid (r : ValidationResult) (s0 : Str)
    (hs : r.serial = some s0) (hne : s0 ≠ [])
    (hinv : s0.filter (fun c => !(isAZ09 c)) ≠ []) :
    Issue.invalidChars (s0.filter (fun c => !(isAZ09 c)))
      ∈ (serialPostCheck r).issues := by
  simp only [serialPostCheck, hs]
  rw [if_neg hne]
  split_ifs <;> simp_all

/-- C5 (amended): whenever the validator returns a serial, either
every character of that serial lies in [A-Z0-9], or the validator's
own issue list records the offending characters (with the 0.7
confidence penalty applied by the same branch). -/
theorem c5_serial_charset_or_issue (s ser : Str)
    (h : (validateEngineFormat s).serial = some ser) :
    (∀ c ∈ ser, isAZ09 c = true) ∨
      Issue.invalidChars (ser.filter (fun c => !(isAZ09 c)))
        ∈ (validateEngineFormat s).issues := by
  have hs' : (validateBase s).serial = some ser := by
    have := serialPostCheck_serial (validateBase s)
    unfold validateEngineFormat at h
    rw [this] at h
    exact h
  by_cases hne : ser = []
  · left; subst hne; simp
  by_cases hinv : ser.filter (fun c => !(isAZ09 c)) = []
  · left
    intro c hc
    have := List.filter_eq_nil_iff.mp hinv c hc
    simpa using this
  · right
    exact serialPostCheck_invalid (validateBase s) ser hs' hne hinv

/-- C5 (witness): instantiation at the input "MC27E!12345", whose
serial is "!12345". -/
theorem c5_serial_charset_or_issue_witness :
    (validateEngineFormat (str "MC27E!12345")).serial = some (str "!12345") ∧
    ((∀ c ∈ str "!12345", isAZ09 c = true) ∨
      Issue.invalidChars ((str "!12345").filter (fun c => !(isAZ09 c)))
        ∈ (validateEngineFormat (str "MC27E!12345")).issues) :=
  ⟨by decide, c5_serial_charset_or_issue (str "MC27E!12345") (str "!12345") (by decide)⟩

/-! ## C6 and C10: the OpenCV engraving classifier -/

/-- C6: the classifier decision over the laser score: LASER exactly
when the score reaches 65, with confidence min(score/100, 0.95);
ESTAMPAGEM exactly when the score is at most 35, with confidence
min((100-score)/100, 0.95); DESCONHECIDO exactly on the middle band,
with confidence 0.5; and the reported dot count is the small-contour
count. -/
theorem c6_classifier_decision (f : CvFeatures) :
    ((detectTypeOpencv (some f)).type = EngravingType.LASER ↔
       65 ≤ laserScoreOf f) ∧
    ((detectTypeOpencv (some f)).type = EngravingType.ESTAMPAGEM ↔
       laserScoreOf f ≤ 35) ∧
    ((detectTypeOpencv (some f)).type = EngravingType.DESCONHECIDO ↔
       (35 < laserScoreOf f ∧ laserScoreOf f < 65)) ∧
    (detectTypeOpencv (some f)).confidence =
      (if 65 ≤ laserScoreOf f then
         min ((laserScoreOf f : ℚ)/100) ((95 : ℚ)/100)
       else if laserScoreOf f ≤ 35 then
         min (((100 - laserScoreOf f : ℕ) : ℚ)/100) ((95 : ℚ)/100)
       else (1 : ℚ)/2) ∧
    (detectTypeOpencv (some f)).avg_dots = f.small_contours := by
  unfold detectTypeOpencv
  dsimp only
  split_ifs with h1 h2 <;> refine ⟨?_, ?_, ?_, ?_, ?_⟩ <;> simp_all
  omega

/-- C10: the detector is total over the byte input; on bytes the image
decoder rejects it returns the defaults DESCONHECIDO, confidence 0.0,
avg_dots 0 instead of an error. -/
theorem c10_undecodable_defaults (decode : List Nat → Option CvFeatures)
    (imageBytes : List Nat) (h : decode imageBytes = none) :
    detectTypeFromBytes decode imageBytes
      = ⟨EngravingType.DESCONHECIDO, 0, 0⟩ := by
  unfold detectTypeFromBytes
  rw [h]
  rfl

/-- C10 (witness): instantiation at a decoder rejecting everything and
the empty byte list. -/
theorem c10_undecodable_defaults_witness :
    ((fun (_ : List Nat) => (none : Option CvFeatures)) [] = none) ∧
    detectTypeFromBytes (fun _ => none) []
      = ⟨EngravingType.DESCONHECIDO, 0, 0⟩ :=
  ⟨rfl, c10_undecodable_defaults (fun _ => none) [] rfl⟩

/-! ## C9: the code normalizer -/

/-- Position 0 is never rewritten by the corrections. -/
theorem corrRule_at_zero (c1 : Char) (n : Nat) (c : Char) :
    corrRule c1 n 0 c = c := by
  simp [corrRule]

/-- The O→0 / I→1 rewriting is idempotent. -/
theorem fixOI_idem (c : Char) : fixOI (fixOI c) = fixOI c := by
  unfold fixOI
  split_ifs <;> simp_all

/-- Each per-position correction is idempotent. -/
theorem corrRule_idem (c1 : Char) (n i : Nat) (c : Char) :
    corrRule c1 n i (corrRule c1 n i c) = corrRule c1 n i c := by
  unfold corrRule
  split_ifs <;> simp_all [fixOI_idem]

/-- The position-wise sweep is idempotent. -/
theorem corrGo_idem (cs : Str) : ∀ (c1 : Char) (n i : Nat),
    corrGo c1 n i (corrGo c1 n i cs) = corrGo c1 n i cs := by
  induction cs with
  | nil => intro c1 n i; rfl
  | cons c t ih => intro c1 n i; simp [corrGo, corrRule_idem, ih]

/-- The position-wise sweep preserves the length. -/
theorem corrGo_length (cs : Str) : ∀ (c1 : Char) (n i : Nat),
    (corrGo c1 n i cs).length = cs.length := by
  induction cs with
  | nil => intro c1 n i; rfl
  | cons c t ih => intro c1 n i; simp [corrGo, ih]

/-- C9 (amended): the position-anchored correction step of the
normalizer is idempotent on every string. -/
theorem c9_corrections_idempotent (t : Str) :
    applyHondaCorrections (applyHondaCorrections t) = applyHondaCorrections t := by
  unfold applyHondaCorrections
  by_cases h : t.length < 6
  · rw [if_pos h, if_pos h]
  · rw [if_neg h]
    have hlen : (corrGo (t.headD ' ') t.length 0 t).length = t.length :=
      corrGo_length t (t.headD ' ') t.length 0
    rw [if_neg (by rw [hlen]; exact h), hlen]
    cases t with
    | nil => simp at h
    | cons c cs =>
        have hhead : (corrGo ((c :: cs).headD ' ') (c :: cs).length 0 (c :: cs)).headD ' ' = c := by
          simp [corrGo, corrRule_at_zero]
        rw [hhead]
        exact corrGo_idem (c :: cs) ((c :: cs).headD ' ') (c :: cs).length 0

/-- C9 (counterexample): the full normalizer (reorder then corrections)
is not idempotent.  On "XND0MC27E9E1234567" the reorder step rotates
'MC27E' (the first known prefix it finds) to the front, producing
"MC27EXND09E1234567", in which the higher-priority prefix 'ND09E1' now
occurs at offset 6; running the normalizer again therefore reorders a
second time, to "ND09E1MC27EX234567". -/
theorem c9_counterexample :
    normalizeCode (str "XND0MC27E9E1234567") = str "MC27EXND09E1234567" ∧
    normalizeCode (normalizeCode (str "XND0MC27E9E1234567"))
      = str "ND09E1MC27EX234567" ∧
    normalizeCode (normalizeCode (str "XND0MC27E9E1234567"))
      ≠ normalizeCode (str "XND0MC27E9E1234567") := by
  decide

/-! ## Median machinery for the alignment detector -/

/-- Inserting into a constant list puts the new element at the front
or at the back according to the order. -/
theorem insert1_replicate (x c : ℚ) (k : Nat) :
    insert1 x (List.replicate k c) =
      if x ≤ c then x :: List.replicate k c
      else List.replicate k c ++ [x] := by
  induction k with
  | zero => simp only [List.replicate, insert1]; split_ifs <;> simp
  | succ k ih =>
      simp only [List.replicate_succ, insert1]
      by_cases h : x ≤ c
      · rw [if_pos h, if_pos h]
      · rw [if_neg h, if_neg h, ih, if_neg h]
        simp

/-- A constant list is already sorted. -/
theorem isort_replicate (c : ℚ) (k : Nat) :
    isort (List.replicate k c) = List.replicate k c := by
  induction k with
  | zero => rfl
  | succ k ih =>
      simp only [List.replicate_succ, isort, ih, insert1_replicate,
        if_pos (le_refl c)]

/-- Sorting a constant list with a single deviating element places the
deviant at the front or at the back. -/
theorem isort_one_dev (c c' : ℚ) : ∀ (j k : Nat),
    isort (List.replicate j c ++ c' :: List.replicate k c) =
      if c' ≤ c then c' :: List.replicate (j + k) c
      else List.replicate (j + k) c ++ [c'] := by
  intro j
  induction j with
  | zero =>
      intro k
      simp only [List.replicate, List.nil_append, isort, isort_replicate,
        insert1_replicate, Nat.zero_add]
  | succ j ih =>
      intro k
      simp only [List.replicate_succ, List.cons_append, isort,
        List.append_eq, ih]
      by_cases h : c' ≤ c
      · rw [if_pos h, if_pos h]
        simp only [insert1]
        by_cases h2 : c ≤ c'
        · have hcc : c' = c := le_antisymm h h2
          subst hcc
          rw [if_pos (le_refl c')]
          have : j + 1 + k = (j + k) + 1 := by omega
          rw [this, List.replicate_succ]
        · rw [if_neg h2, insert1_replicate, if_pos (le_refl c)]
          have : j + 1 + k = (j + k) + 1 := by omega
          rw [this, List.replicate_succ]
      · rw [if_neg h, if_neg h]
        have hcc' : c ≤ c' := le_of_lt (lt_of_not_le h)
        have harr : j + 1 + k = (j + k) + 1 := by omega
        rw [harr]
        rcases hm : j + k with _ | m
        · simp only [List.replicate, List.nil_append, insert1,
            if_pos hcc', List.replicate_succ]
          simp
        · simp only [List.replicate_succ, List.cons_append, insert1,
            if_pos (le_refl c), List.append_eq]

/-- Value of `getD` on a constant list. -/
theorem getD_replicate (c x : ℚ) (n i : Nat) (h : i < n) :
    (List.replicate n c).getD i x = c := by
  rw [List.getD_eq_getElem?_getD, List.getElem?_replicate, if_pos h]
  rfl

/-- Value of `getD` of a cons at a positive index. -/
theorem getD_cons_of_pos (a x : ℚ) (L : List ℚ) (i : Nat) (h : 0 < i) :
    (a :: L).getD i x = L.getD (i - 1) x := by
  rcases i with _ | i
  · omega
  · simp [List.getD_cons_succ]

/-- The median of a nonempty constant list is the constant. -/
theorem median_replicate (c : ℚ) (n : Nat) (h : 1 ≤ n) :
    median (List.replicate n c) = c := by
  unfold median
  rw [isort_replicate, List.length_replicate]
  split_ifs with hodd
  · exact getD_replicate c 0 n (n / 2) (by omega)
  · rw [getD_replicate c 0 n (n / 2 - 1) (by omega),
      getD_replicate c 0 n (n / 2) (by omega)]
    exact add_self_div_two c

/-- The median of at least 3 values that are all equal to `c` except
one is still `c`: the single deviant lands at an end of the sorted
list, away from the middle. -/
theorem median_one_dev (c c' : ℚ) (j k : Nat) (h : 2 ≤ j + k) :
    median (List.replicate j c ++ c' :: List.replicate k c) = c := by
  unfold median
  rw [isort_one_dev]
  by_cases hc : c' ≤ c
  · rw [if_pos hc]
    simp only [List.length_cons, List.length_replicate]
    split_ifs with hodd
    · rw [getD_cons_of_pos _ _ _ _ (by omega),
        getD_replicate c 0 (j + k) _ (by omega)]
    · rw [getD_cons_of_pos _ _ _ _ (by omega),
        getD_cons_of_pos _ _ _ _ (by omega),
        getD_replicate c 0 (j + k) _ (by omega),
        getD_replicate c 0 (j + k) _ (by omega)]
      exact add_self_div_two c
  · rw [if_neg hc]
    simp only [List.length_append, List.length_replicate, List.length_cons,
      List.length_nil]
    split_ifs with hodd
    · rw [List.getD_append _ _ _ _ (by simp; omega),
        getD_replicate c 0 (j + k) _ (by omega)]
    · rw [List.getD_append _ _ _ _ (by simp; omega),
        List.getD_append _ _ _ _ (by simp; omega),
        getD_replicate c 0 (j + k) _ (by omega),
        getD_replicate c 0 (j + k) _ (by omega)]
      exact add_self_div_two c

/-- A `filterMap` drops a constant block whose element is not flagged. -/
theorem filterMap_replicate_none {α β : Type} (f : α → Option β) (g : α)
    (hf : f g = none) : ∀ m, List.filterMap f (List.replicate m g) = [] := by
  intro m
  induction m with
  | zero => rfl
  | succ m ih => simp [List.replicate_succ, List.filterMap_cons, hf, ih]

/-- C7 (amended): with fewer than 3 metrics nothing is flagged; a list
of identical metrics yields no findings; and when exactly one glyph
deviates in `center_y` beyond `median height * 0.15`, with heights
shared and all centers positive (the detector treats a zero center as
a missing value and skips that glyph), exactly the deviating glyph is
flagged with a 'MÉDIO' misalignment finding. -/
theorem c7_alignment_outliers :
    (∀ ms : List GlyphMetric, ms.length < 3 → analyzeAlignment ms = []) ∧
    (∀ (g : GlyphMetric) (n : Nat), analyzeAlignment (List.replicate n g) = []) ∧
    (∀ (j k : Nat) (g d : GlyphMetric),
      3 ≤ j + k + 1 → d.height = g.height →
      0 < g.height → 0 < g.center_y → 0 < d.center_y →
      g.height * ((15 : ℚ)/100) < ratAbs (d.center_y - g.center_y) →
      analyzeAlignment (List.replicate j g ++ d :: List.replicate k g)
        = [⟨d.char, d.index + 1, Severity.MEDIUM,
             Reason.misalignment (ratAbs (d.center_y - g.center_y))⟩]) := by
  refine ⟨?_, ?_, ?_⟩
  · intro ms h
    unfold analyzeAlignment
    rw [if_pos h]
  · intro g n
    by_cases hn : n < 3
    · unfold analyzeAlignment
      rw [if_pos (by simpa using hn)]
    · by_cases hc : 0 < g.center_y
      · by_cases hh : 0 < g.height
        · have hmedh : median (List.replicate n g.height) = g.height :=
            median_replicate _ _ (by omega)
          have hmedc : median (List.replicate n g.center_y) = g.center_y :=
            median_replicate _ _ (by omega)
          have hfg : alignFlag (median (List.replicate n g.center_y))
              (median (List.replicate n g.height) * ((15 : ℚ)/100)) g = none := by
            unfold alignFlag
            rw [if_neg (by intro h0; rw [h0] at hc; exact lt_irrefl 0 hc)]
            rw [hmedh, hmedc]
            rw [if_neg ?_]
            have h1 : ratAbs (g.center_y - g.center_y) = 0 := by simp [ratAbs]
            rw [h1]
            have : (0 : ℚ) < g.height * ((15 : ℚ)/100) := mul_pos hh (by norm_num)
            linarith
          simp only [analyzeAlignment, List.length_replicate, List.map_replicate,
            List.filter_replicate, decide_eq_true_eq, hn, if_false,
            if_pos hc, if_pos hh]
          rw [if_neg (by push_neg; constructor <;> simp [List.replicate_eq_nil_iff] <;> omega)]
          exact filterMap_replicate_none _ _ hfg n
        · simp only [analyzeAlignment, List.length_replicate, List.map_replicate,
            List.filter_replicate, decide_eq_true_eq, hn, if_false,
            if_pos hc, if_neg hh]
          simp
      · simp only [analyzeAlignment, List.length_replicate, List.map_replicate,
          List.filter_replicate, decide_eq_true_eq, hn, if_false, if_neg hc]
        simp
  · intro j k g d h3 hh hgh hgc hdc hdev
    have hmap_c : (List.replicate j g ++ d :: List.replicate k g).map (·.center_y)
        = List.replicate j g.center_y ++ d.center_y :: List.replicate k g.center_y := by
      simp [List.map_append, List.map_replicate]
    have hmap_h : (List.replicate j g ++ d :: List.replicate k g).map (·.height)
        = List.replicate (j + k + 1) g.height := by
      simp only [List.map_append, List.map_replicate, List.map_cons, hh]
      have harr : j + k + 1 = j + (k + 1) := by omega
      rw [harr, List.replicate_add, List.replicate_succ]
    have hfil_c : (List.replicate j g.center_y
          ++ d.center_y :: List.replicate k g.center_y).filter
          (fun c => decide (0 < c))
        = List.replicate j g.center_y ++ d.center_y :: List.replicate k g.center_y := by
      apply List.filter_eq_self.mpr
      intro a ha
      simp only [List.mem_append, List.mem_cons, List.mem_replicate] at ha
      rcases ha with ⟨_, rfl⟩ | rfl | ⟨_, rfl⟩ <;> simp [hgc, hdc]
    have hfil_h : (List.replicate (j + k + 1) g.height).filter
          (fun c => decide (0 < c)) = List.replicate (j + k + 1) g.height := by
      rw [List.filter_replicate]
      simp [hgh]
    have hmedc : median (List.replicate j g.center_y
        ++ d.center_y :: List.replicate k g.center_y) = g.center_y :=
      median_one_dev _ _ _ _ (by omega)
    have hmedh : median (List.replicate (j + k + 1) g.height) = g.height :=
      median_replicate _ _ (by omega)
    have hfg : alignFlag g.center_y (g.height * ((15 : ℚ)/100)) g = none := by
      unfold alignFlag
      rw [if_neg (by intro h0; rw [h0] at hgc; exact lt_irrefl 0 hgc)]
      rw [if_neg ?_]
      have h1 : ratAbs (g.center_y - g.center_y) = 0 := by simp [ratAbs]
      rw [h1]
      have : (0 : ℚ) < g.height * ((15 : ℚ)/100) := mul_pos hgh (by norm_num)
      linarith
    have hfd : alignFlag g.center_y (g.height * ((15 : ℚ)/100)) d
        = some ⟨d.char, d.index + 1, Severity.MEDIUM,
            Reason.misalignment (ratAbs (d.center_y - g.center_y))⟩ := by
      unfold alignFlag
      rw [if_neg (by intro h0; rw [h0] at hdc; exact lt_irrefl 0 hdc)]
      rw [if_pos hdev]
    unfold analyzeAlignment
    rw [if_neg (by simp [List.length_append, List.length_replicate]; omega)]
    simp only [hmap_c, hmap_h, hfil_c, hfil_h, hmedc, hmedh]
    rw [if_neg (by push_neg; constructor <;> simp [List.replicate_eq_nil_iff])]
    rw [List.filterMap_append, List.filterMap_cons, hfd,
      filterMap_replicate_none _ _ hfg j, filterMap_replicate_none _ _ hfg k]
    simp

/-- The metrics list of the C7 counterexample: two identical glyphs at
center 10 and one glyph whose center is 0, deviating from the median
center (10) by far more than the tolerance (1.5). -/
def alignCexMetrics : List GlyphMetric :=
  [⟨'A', 0, 10, 10, 0⟩, ⟨'B', 1, 10, 10, 0⟩, ⟨'C', 2, 10, 0, 0⟩]

/-- C7 (counterexample): the claim "exactly that one glyph receives a
MEDIUM vertical-misalignment finding" fails when the deviating glyph's
centerY is 0: the detector skips it (`center_y == 0` means a missing
read), so no finding at all is produced although the glyph deviates
from the median center by more than the tolerance. -/
theorem c7_counterexample :
    3 ≤ alignCexMetrics.length ∧
    median ((alignCexMetrics.map (·.center_y)).filter (fun c => 0 < c)) = 10 ∧
    median ((alignCexMetrics.map (·.height)).filter (fun h => 0 < h)) = 10 ∧
    (10 : ℚ) * ((15 : ℚ)/100) < ratAbs ((0 : ℚ) - 10) ∧
    analyzeAlignment alignCexMetrics = [] := by
  refine ⟨by decide, ?_, ?_, by norm_num [ratAbs], ?_⟩
  · norm_num [alignCexMetrics, median, isort, insert1]
  · norm_num [alignCexMetrics, median, isort, insert1]
  · norm_num [analyzeAlignment, alignCexMetrics, alignFlag, median, isort,
      insert1, ratAbs]

/-- The shared glyph of the C7 witness. -/
def gW7 : GlyphMetric := ⟨'A', 0, 10, 10, 0⟩

/-- The deviating glyph of the C7 witness. -/
def dW7 : GlyphMetric := ⟨'B', 1, 10, 20, 0⟩

/-- C7 (witness): instantiation of the one-deviant case at three
glyphs of height 10, centers 10, 20, 10. -/
theorem c7_alignment_outliers_witness :
    3 ≤ 1 + 1 + 1 ∧ dW7.height = gW7.height ∧ (0 : ℚ) < gW7.height ∧
    (0 : ℚ) < gW7.center_y ∧ (0 : ℚ) < dW7.center_y ∧
    gW7.height * ((15 : ℚ)/100) < ratAbs (dW7.center_y - gW7.center_y) ∧
    analyzeAlignment (List.replicate 1 gW7 ++ dW7 :: List.replicate 1 gW7)
      = [⟨dW7.char, dW7.index + 1, Severity.MEDIUM,
           Reason.misalignment (ratAbs (dW7.center_y - gW7.center_y))⟩] := by
  have h2 : dW7.height = gW7.height := rfl
  have h3 : (0 : ℚ) < gW7.height := by norm_num [gW7]
  have h4 : (0 : ℚ) < gW7.center_y := by norm_num [gW7]
  have h5 : (0 : ℚ) < dW7.center_y := by norm_num [dW7]
  have h6 : gW7.height * ((15 : ℚ)/100) < ratAbs (dW7.center_y - gW7.center_y) := by
    norm_num [gW7, dW7, ratAbs]
  exact ⟨by omega, h2, h3, h4, h5, h6,
    c7_alignment_outliers.2.2 1 1 gW7 dW7 (by omega) h2 h3 h4 h5 h6⟩

/-! ## C1: critical type-mismatch finding and the risk override -/

/-- Number of 'CRÍTICO' findings in a findings list. -/
def countCritical (fs : List Finding) : Nat :=
  (fs.filter (fun fd => fd.severity == Severity.CRITICO)).length

/-- Every finding produced by the alignment analysis has severity
'MÉDIO'. -/
theorem alignment_findings_medio (ms : List GlyphMetric) (f : Finding)
    (hf : f ∈ analyzeAlignment ms) : f.severity = Severity.MEDIUM := by
  unfold analyzeAlignment at hf
  dsimp only at hf
  split_ifs at hf
  · simp at hf
  · simp at hf
  · rcases List.mem_filterMap.mp hf with ⟨m, _, hflag⟩
    unfold alignFlag at hflag
    split_ifs at hflag
    cases hflag
    rfl

/-- C1: when the detected engraving type is known and differs from the
expected type, `analyze` creates exactly one 'CRÍTICO' finding (the
alignment findings are all 'MÉDIO'); and in the risk aggregation, any
findings list containing a CRITICAL finding forces a final score of at
least 85 and the HIGH_SUSPICION verdict, whatever the other
contributions are. -/
theorem c1_critical_finding_forces_high_suspicion
    (decode : List Nat → Option CvFeatures)
    (imageBytes : List Nat) (ocrMetrics : List GlyphMetric)
    (expectedType : EngravingType)
    (h1 : (detectTypeOpencv (decode imageBytes)).type ≠ EngravingType.DESCONHECIDO)
    (h2 : (detectTypeOpencv (decode imageBytes)).type ≠ expectedType) :
    countCritical (analyzeService decode imageBytes ocrMetrics expectedType).outliers
      = 1 ∧
    ∀ (tm : Bool) (fmtIssues gapMismatches opinionPoints : Nat)
      (opinionShapeOnly : Bool) (findings : List Finding),
      1 ≤ countCritical findings →
      85 ≤ (riskAggregate fmtIssues tm findings gapMismatches
              opinionShapeOnly opinionPoints).score ∧
      (riskAggregate fmtIssues tm findings gapMismatches
          opinionShapeOnly opinionPoints).verdict = Verdict.HIGH_SUSPICION := by
  constructor
  · have hmis : (((detectTypeOpencv (decode imageBytes)).type
        != EngravingType.DESCONHECIDO)
        && ((detectTypeOpencv (decode imageBytes)).type != expectedType)) = true := by
      simp [bne_iff_ne, h1, h2]
    have halign : ∀ L : List Finding,
        (∀ f ∈ L, f.severity = Severity.MEDIUM) →
        L.filter (fun fd => fd.severity == Severity.CRITICO) = [] := by
      intro L hL
      apply List.filter_eq_nil_iff.mpr
      intro f hfL
      rw [hL f hfL]
      simp
    unfold analyzeService countCritical
    dsimp only
    rw [hmis]
    rw [if_pos rfl]
    rw [List.filter_append]
    have h0 : (if ocrMetrics.isEmpty then ([] : List Finding)
        else analyzeAlignment ocrMetrics).filter
        (fun fd => fd.severity == Severity.CRITICO) = [] := by
      split_ifs with he
      · rfl
      · exact halign _ (fun f hf => alignment_findings_medio ocrMetrics f hf)
    rw [h0]
    simp
  · intro tm fmtIssues gapMismatches opinionPoints opinionShapeOnly findings hcrit
    have hany : findings.any (fun fd => fd.severity == Severity.CRITICO) = true := by
      unfold countCritical at hcrit
      have hne : findings.filter (fun fd => fd.severity == Severity.CRITICO) ≠ [] := by
        intro h0
        rw [h0] at hcrit
        simp at hcrit
      rcases List.exists_mem_of_ne_nil _ hne with ⟨f, hf⟩
      rcases List.mem_filter.mp hf with ⟨hfm, hfp⟩
      exact List.any_eq_true.mpr ⟨f, hfm, hfp⟩
    unfold riskAggregate
    dsimp only
    rw [hany]
    rw [if_pos rfl]
    constructor
    · exact le_min (le_max_right _ _) (by omega)
    · have hs : 85 ≤ min (max (min (fmtIssues * 8) 25 + (if tm = true then 10 else 0)
          + min (findings.length * 5) 15 + gapMismatches * 20
          + (if opinionShapeOnly = true then min opinionPoints 35
             else opinionPoints)) 85) 100 :=
        le_min (le_max_right _ _) (by omega)
      rw [if_neg (by omega), if_neg (by omega), if_neg (by omega)]

/-- A feature vector scoring 0 laser points, classified ESTAMPAGEM. -/
def feaW : CvFeatures := ⟨0, 10, 1000, 10, 0⟩

/-- C1 (witness): an image classified ESTAMPAGEM against the expected
LASER yields exactly one critical finding, and aggregating those
findings scores at least 85 with the HIGH_SUSPICION verdict. -/
theorem c1_critical_finding_forces_high_suspicion_witness :
    (detectTypeOpencv ((fun (_ : List Nat) => some feaW) [])).type
      ≠ EngravingType.DESCONHECIDO ∧
    (detectTypeOpencv ((fun (_ : List Nat) => some feaW) [])).type
      ≠ EngravingType.LASER ∧
    countCritical (analyzeService (fun _ => some feaW) [] []
        EngravingType.LASER).outliers = 1 ∧
    85 ≤ (riskAggregate 0 true (analyzeService (fun _ => some feaW) [] []
            EngravingType.LASER).outliers 0 false 0).score ∧
    (riskAggregate 0 true (analyzeService (fun _ => some feaW) [] []
        EngravingType.LASER).outliers 0 false 0).verdict
      = Verdict.HIGH_SUSPICION := by
  have h1 : (detectTypeOpencv ((fun (_ : List Nat) => some feaW) [])).type
      ≠ EngravingType.DESCONHECIDO := by
    norm_num [detectTypeOpencv, laserScoreOf, feaW]
    decide
  have h2 : (detectTypeOpencv ((fun (_ : List Nat) => some feaW) [])).type
      ≠ EngravingType.LASER := by
    norm_num [detectTypeOpencv, laserScoreOf, feaW]
    decide
  obtain ⟨p1, p2⟩ := c1_critical_finding_forces_high_suspicion
    (fun _ => some feaW) [] [] EngravingType.LASER h1 h2
  have hge : 1 ≤ countCritical (analyzeService (fun _ => some feaW) [] []
      EngravingType.LASER).outliers := by
    rw [p1]
  exact ⟨h1, h2, p1, (p2 true 0 0 0 false _ hge).1, (p2 true 0 0 0 false _ hge).2⟩

/-! ## C8: the density-outlier pass (spec-modelled) -/

/-- C8: the density pass runs only on a LASER classification (other
classifications yield no findings), and on LASER it flags exactly the
glyphs whose dot count deviates from the median dot count by more than
`median * DENSITY_TOLERANCE`, each finding carrying the direction
(above when the count exceeds the median, below otherwise) and the
deviation. -/
theorem c8_density_outliers_characterization (densityTol : ℚ)
    (metrics : List GlyphMetric) :
    densityOutliers densityTol EngravingType.ESTAMPAGEM metrics = [] ∧
    densityOutliers densityTol EngravingType.DESCONHECIDO metrics = [] ∧
    densityOutliers densityTol EngravingType.LASER metrics
      = metrics.filterMap (fun m =>
          if median (metrics.map (·.dots)) * densityTol
              < ratAbs (m.dots - median (metrics.map (·.dots))) then
            some ⟨m.char, m.index + 1, Severity.MEDIUM,
              Reason.densityOutlier
                (if median (metrics.map (·.dots)) < m.dots then Direction.above
                 else Direction.below)
                (ratAbs (m.dots - median (metrics.map (·.dots))))⟩
          else none) :=
  ⟨rfl, rfl, rfl⟩
